import Mathlib

/-!
Verification of the jumanji repository's spec/validation layer, wrapper
composition layer and connector environment, via a shallow embedding of
the Python sources in Lean 4.

Conventions of the embedding:
* a jax array is modelled by `specs.JValue`: a shape (list of dimension
  sizes), a dtype tag, and an element function from multi-indices to
  integers (integer contents are enough for every property considered
  here; the dtype tag records the declared jax dtype);
* Python functions that may raise `ValueError` return `Except String`;
* NumPy-style broadcasting of a source shape to a target shape is
  modelled by `specs.broadcastableTo` / `specs.bcastIndex`;
* rewards and discounts handled by the wrappers are rationals, and
  per-agent arrays of them are lists.
-/

namespace specs

/-- Dtype tags for jax arrays, after `get_valid_dtype` canonicalisation:
an integral dtype, a floating dtype, or booleans. -/
inductive JDtype where
  | jint : JDtype
  | jfloat : JDtype
  | jbool : JDtype
deriving DecidableEq

/-- A jax array: a shape, a dtype tag, and the element found at each
multi-index (indices outside the shape are irrelevant junk). -/
structure JValue where
  shape : List Nat
  dtype : JDtype
  elem : List Nat → Int

/-- All multi-indices of a given shape (row-major enumeration). -/
def allIndices : List Nat → List (List Nat)
  | [] => [[]]
  | d :: ds => (List.range d).flatMap fun i => (allIndices ds).map (i :: ·)

/-- Whether `jnp.broadcast_to` accepts broadcasting shape `src` to shape
`tgt`: `src` is no longer than `tgt` and, aligned from the right, each
source dimension equals the target dimension or is 1. -/
def broadcastableTo (src tgt : List Nat) : Bool :=
  decide (src.length ≤ tgt.length) &&
    (List.zip src (tgt.drop (tgt.length - src.length))).all
      fun p => p.1 == p.2 || p.1 == 1

/-- The source multi-index that broadcasting reads when producing the
element of target multi-index `idx`. -/
def bcastIndex (src tgt idx : List Nat) : List Nat :=
  List.zipWith (fun s i => if s == 1 then 0 else i) src
    (idx.drop (tgt.length - src.length))

/-- A scalar jax array (shape `()`). -/
def scalarV (dtype : JDtype) (x : Int) : JValue :=
  { shape := [], dtype := dtype, elem := fun _ => x }

/-- Embeds the class `jumanji.specs.Array` (identical in
`jumanji/jax/specs.py`): a shape, a dtype and a name. -/
structure Array where
  shape : List Nat
  dtype : JDtype
  name : String

/-- Embeds `Array._fail_validation`: appends ` for spec <name>.` when the
spec has a nonempty name, else just a period, and raises `ValueError`. -/
def failValidationMsg (s : Array) (message : String) : String :=
  if s.name = "" then message ++ "." else message ++ " for spec " ++ s.name ++ "."

/-- Embeds `Array.validate`: checks the value's shape then its dtype
against the spec, raising `ValueError` on mismatch, else returns the
value (already a jax array in the embedding). -/
def Array.validate (s : Array) (value : JValue) : Except String JValue :=
  if value.shape ≠ s.shape then
    .error (failValidationMsg s "Expected shape as in spec but found another shape")
  else if value.dtype ≠ s.dtype then
    .error (failValidationMsg s "Expected dtype as in spec but found another dtype")
  else
    .ok value

/-- Embeds `Array.generate_value`: `jnp.zeros(shape, dtype)`. -/
def Array.generate_value (s : Array) : JValue :=
  { shape := s.shape, dtype := s.dtype, elem := fun _ => 0 }

/-- Embeds the class `jumanji.specs.BoundedArray`: an `Array` together
with the stored (un-broadcast) `minimum` and `maximum` arrays. -/
structure BoundedArray extends Array where
  minimum : JValue
  maximum : JValue

/-- The broadcast element of a bound array `b` at target index `idx` of a
spec of shape `shape`. -/
def boundElem (b : JValue) (shape : List Nat) (idx : List Nat) : Int :=
  b.elem (bcastIndex b.shape shape idx)

/-- Embeds `BoundedArray.__init__`: casts both bounds to the spec dtype
(`jnp.asarray(minimum, dtype)`), checks that each bound broadcasts to
`shape`, raises `ValueError` when some broadcast element of `minimum`
exceeds the corresponding element of `maximum`, and otherwise stores the
un-broadcast bounds. -/
def BoundedArray.make (shape : List Nat) (dtype : JDtype)
    (minimum maximum : JValue) (name : String) : Except String BoundedArray :=
  let minimum := { minimum with dtype := dtype }
  let maximum := { maximum with dtype := dtype }
  if ¬ broadcastableTo minimum.shape shape then
    .error "`minimum` is incompatible with `shape`"
  else if ¬ broadcastableTo maximum.shape shape then
    .error "`maximum` is incompatible with `shape`"
  else if (allIndices shape).any
      (fun idx => decide (boundElem minimum shape idx > boundElem maximum shape idx)) then
    .error "All values in `minimum` must be less than or equal to their corresponding value in `maximum`"
  else
    .ok { shape := shape, dtype := dtype, name := name,
          minimum := minimum, maximum := maximum }

/-- Embeds `BoundedArray.validate`: first the inherited shape/dtype
check, then `ValueError` if `(value < minimum).any()` or
`(value > maximum).any()` under broadcasting, else the value. -/
def BoundedArray.validate (s : BoundedArray) (value : JValue) : Except String JValue :=
  match s.toArray.validate value with
  | .error e => .error e
  | .ok value =>
    if ((allIndices s.shape).any
          fun idx => decide (value.elem idx < boundElem s.minimum s.shape idx)) ||
       ((allIndices s.shape).any
          fun idx => decide (value.elem idx > boundElem s.maximum s.shape idx)) then
      .error (failValidationMsg s.toArray "Values were not all within bounds")
    else
      .ok value

/-- Embeds `BoundedArray.generate_value`:
`jnp.ones(shape, dtype) * minimum`, i.e. the minimum broadcast to the
spec shape. -/
def BoundedArray.generate_value (s : BoundedArray) : JValue :=
  { shape := s.shape, dtype := s.dtype,
    elem := fun idx => boundElem s.minimum s.shape idx }

/-- Embeds the class `jumanji.specs.DiscreteArray`: a scalar zero-based
`BoundedArray` with a `num_values` attribute. -/
structure DiscreteArray extends BoundedArray where
  num_values : Int

/-- Embeds `DiscreteArray.__init__`: `ValueError` when `num_values` is
not positive or the dtype is not integral, else the scalar
`BoundedArray` with minimum 0 and maximum `num_values - 1`. -/
def DiscreteArray.make (num_values : Int) (dtype : JDtype) (name : String) :
    Except String DiscreteArray :=
  if num_values ≤ 0 then
    .error "`num_values` must be a positive integer"
  else if dtype ≠ JDtype.jint then
    .error "`dtype` must be integral"
  else
    match BoundedArray.make [] dtype (scalarV dtype 0)
        (scalarV dtype (num_values - 1)) name with
    | .error e => .error e
    | .ok b => .ok { toBoundedArray := b, num_values := num_values }

/-- Embeds the `jumanji.specs.Spec` family as seen by `isinstance`
dispatch: the three array classes (a `DiscreteArray` value is never
dynamically a plain `BoundedArray`, matching `isinstance` order), and
nested specs (such as the per-environment `ObservationSpec`s), which are
direct `Spec` subclasses holding child specs. -/
inductive Spec where
  | array (a : Array) : Spec
  | bounded (b : BoundedArray) : Spec
  | discrete (d : DiscreteArray) : Spec
  | nested (name : String) (children : List Spec) : Spec

end specs

namespace dm_env

/-- The dm_env spec classes targeted by the conversion, with the fields
their constructors receive. -/
inductive DmSpec where
  | array (shape : List Nat) (dtype : specs.JDtype) (name : Option String) : DmSpec
  | bounded (shape : List Nat) (dtype : specs.JDtype)
      (minimum maximum : specs.JValue) (name : Option String) : DmSpec
  | discrete (num_values : Int) (dtype : specs.JDtype) (name : Option String) : DmSpec

end dm_env

namespace specs

/-- Embeds `spec.name if spec.name else None` (empty string is falsy). -/
def nameOrNone (n : String) : Option String :=
  if n = "" then none else some n

/-- Embeds `jumanji_specs_to_dm_env_specs`: `isinstance` checks in the
order `DiscreteArray`, `BoundedArray`, `Array`, preserving the fields,
and `ValueError` for any other (nested) spec. -/
def jumanji_specs_to_dm_env_specs : Spec → Except String dm_env.DmSpec
  | .discrete d =>
    .ok (.discrete d.num_values d.dtype (nameOrNone d.name))
  | .bounded b =>
    .ok (.bounded b.shape b.dtype b.minimum b.maximum (nameOrNone b.name))
  | .array a =>
    .ok (.array a.shape a.dtype (nameOrNone a.name))
  | .nested _ _ =>
    .error "spec is not available in a deepmind environment"

end specs

namespace connect4

/-- Modelled from the spec: the `Observation` container of
`jumanji.connect4.types` is absent from the sources; per the
`ObservationSpec` code it holds a `board` array and an `action_mask`
array. -/
structure Observation where
  board : specs.JValue
  action_mask : specs.JValue

/-- Embeds `jumanji.connect4.specs.ObservationSpec`: a nested spec made
of a board spec and an action-mask spec. -/
structure ObservationSpec where
  board_obs : specs.Array
  action_mask : specs.Array

/-- Embeds `ObservationSpec.generate_value`: component-wise
`generate_value`. -/
def ObservationSpec.generate_value (s : ObservationSpec) : Observation :=
  { board := s.board_obs.generate_value,
    action_mask := s.action_mask.generate_value }

/-- Embeds `ObservationSpec.validate`: validates both components
(propagating any `ValueError`) and rebuilds the observation from the
validated values. -/
def ObservationSpec.validate (s : ObservationSpec) (value : Observation) :
    Except String Observation := do
  let board ← s.board_obs.validate value.board
  let mask ← s.action_mask.validate value.action_mask
  pure { board := board, action_mask := mask }

end connect4

namespace wrappers

/-- Modelled from the spec: `StepType` of `jumanji.types` is absent from
the sources; a timestep is the FIRST, a MID, or the LAST of an episode. -/
inductive StepType where
  | first : StepType
  | mid : StepType
  | last : StepType
deriving DecidableEq

/-- Modelled from the spec: the `TimeStep` container of `jumanji.types`
is absent from the sources; per its uses in `jumanji/wrappers.py` it
holds a step type, a reward, a discount, an observation, and optional
extras. Reward and discount types are parameters because the
multi-agent-to-single-agent wrapper changes them from arrays to
scalars. -/
structure TimeStep (O R D E : Type) where
  step_type : StepType
  reward : R
  discount : D
  observation : O
  extras : Option E

/-- Modelled from the spec: `TimeStep.last()` of `jumanji.types` is
absent from the sources; it tells whether the step type is LAST. -/
def TimeStep.last {O R D E : Type} (ts : TimeStep O R D E) : Bool :=
  decide (ts.step_type = StepType.last)

/-- Modelled from the spec: the abstract `jumanji.env.Environment`
interface is absent from the sources; its observable methods are
`reset`, `step`, `observation_spec` and `action_spec`. -/
structure Environment (K S A O R D E : Type) where
  reset : K → S × TimeStep O R D E
  step : S → A → S × TimeStep O R D E
  observation_spec : specs.Spec
  action_spec : specs.Spec

/-- A chain of base `Wrapper`s around an environment: `base e` is a bare
environment, `wrap t` is `Wrapper(t)`. -/
inductive EnvStack (K S A O R D E : Type) where
  | base (e : Environment K S A O R D E) : EnvStack K S A O R D E
  | wrap (t : EnvStack K S A O R D E) : EnvStack K S A O R D E

/-- Embeds `Wrapper.reset`: `self._env.reset(key)`; a bare environment
resets with its own method. -/
def EnvStack.reset {K S A O R D E : Type} :
    EnvStack K S A O R D E → K → S × TimeStep O R D E
  | .base e => e.reset
  | .wrap t => EnvStack.reset t

/-- Embeds `Wrapper.step`: `self._env.step(state, action)`. -/
def EnvStack.step {K S A O R D E : Type} :
    EnvStack K S A O R D E → S → A → S × TimeStep O R D E
  | .base e => e.step
  | .wrap t => EnvStack.step t

/-- Embeds `Wrapper.observation_spec`: `self._env.observation_spec()`. -/
def EnvStack.observation_spec {K S A O R D E : Type} :
    EnvStack K S A O R D E → specs.Spec
  | .base e => e.observation_spec
  | .wrap t => EnvStack.observation_spec t

/-- Embeds `Wrapper.action_spec`: `self._env.action_spec()`. -/
def EnvStack.action_spec {K S A O R D E : Type} :
    EnvStack K S A O R D E → specs.Spec
  | .base e => e.action_spec
  | .wrap t => EnvStack.action_spec t

/-- Embeds the `unwrapped` property: `Wrapper.unwrapped` returns
`self._env.unwrapped`; on a bare environment, `unwrapped` returns the
environment itself (modelled from the spec, `jumanji/env.py` being
absent from the sources). -/
def EnvStack.unwrapped {K S A O R D E : Type} :
    EnvStack K S A O R D E → Environment K S A O R D E
  | .base e => e
  | .wrap t => EnvStack.unwrapped t

/-- `n` nested applications of the base `Wrapper`. -/
def wrapN {K S A O R D E : Type} :
    Nat → EnvStack K S A O R D E → EnvStack K S A O R D E
  | 0, t => t
  | n + 1, t => .wrap (wrapN n t)

/-- Embeds the default reward aggregator `jnp.sum` on a per-agent
reward array. -/
def jnp_sum (l : List ℚ) : ℚ := l.sum

/-- Embeds the default discount aggregator `jnp.max` on a per-agent
discount array (`jnp.max` is undefined on an empty array; the theorems
only use this on nonempty lists). -/
def jnp_max : List ℚ → ℚ
  | [] => 0
  | x :: xs => xs.foldl max x

/-- Embeds `MultiToSingleWrapper`: the wrapped environment together with
the reward and discount aggregators taken by `__init__`. -/
structure MultiToSingleWrapper (K S A O E : Type) where
  env : Environment K S A O (List ℚ) (List ℚ) E
  reward_aggregator : List ℚ → ℚ
  discount_aggregator : List ℚ → ℚ

/-- `MultiToSingleWrapper` built with the default aggregators
`jnp.sum` and `jnp.max`. -/
def MultiToSingleWrapper.mkDefault {K S A O E : Type}
    (env : Environment K S A O (List ℚ) (List ℚ) E) :
    MultiToSingleWrapper K S A O E :=
  { env := env, reward_aggregator := jnp_sum, discount_aggregator := jnp_max }

/-- Embeds `MultiToSingleWrapper._aggregate_timestep`: keeps step type
and observation, aggregates reward and discount, and rebuilds the
timestep (dropping extras, which the `TimeStep` constructor call leaves
at its default). -/
def MultiToSingleWrapper.aggregate_timestep {K S A O E : Type}
    (w : MultiToSingleWrapper K S A O E) (ts : TimeStep O (List ℚ) (List ℚ) E) :
    TimeStep O ℚ ℚ E :=
  { step_type := ts.step_type,
    reward := w.reward_aggregator ts.reward,
    discount := w.discount_aggregator ts.discount,
    observation := ts.observation,
    extras := none }

/-- Embeds `MultiToSingleWrapper.reset`: resets the wrapped environment
and aggregates the timestep. -/
def MultiToSingleWrapper.reset {K S A O E : Type}
    (w : MultiToSingleWrapper K S A O E) (key : K) : S × TimeStep O ℚ ℚ E :=
  let r := w.env.reset key
  (r.1, w.aggregate_timestep r.2)

/-- Embeds `MultiToSingleWrapper.step`: steps the wrapped environment
and aggregates the timestep. -/
def MultiToSingleWrapper.step {K S A O E : Type}
    (w : MultiToSingleWrapper K S A O E) (state : S) (action : A) :
    S × TimeStep O ℚ ℚ E :=
  let r := w.env.step state action
  (r.1, w.aggregate_timestep r.2)

/-- Embeds `AutoResetWrapper`: the wrapped environment, together with
the `state.key` attribute access used by `auto_reset` (modelled as an
accessor function, the state type being abstract here). -/
structure AutoResetWrapper (K S A O R D E : Type) where
  env : Environment K S A O R D E
  state_key : S → K

/-- Embeds `AutoResetWrapper.auto_reset`: resets the wrapped environment
with the key of the given (post-step) state, and overwrites the
timestep's observation and step type with the reset timestep's. -/
def AutoResetWrapper.auto_reset {K S A O R D E : Type}
    (w : AutoResetWrapper K S A O R D E) (state : S) (timestep : TimeStep O R D E) :
    S × TimeStep O R D E :=
  let r := w.env.reset (w.state_key state)
  (r.1, { timestep with observation := r.2.observation, step_type := r.2.step_type })

/-- Embeds `AutoResetWrapper.step`: steps the wrapped environment, then
`jax.lax.cond(timestep.last(), auto_reset, identity)` on the resulting
state and timestep. -/
def AutoResetWrapper.step {K S A O R D E : Type}
    (w : AutoResetWrapper K S A O R D E) (state : S) (action : A) :
    S × TimeStep O R D E :=
  let r := w.env.step state action
  if r.2.last then w.auto_reset r.1 r.2 else (r.1, r.2)

end wrappers

namespace connector

/-- A connector grid: a 2-d integer array. -/
abbrev Grid := List (List Int)

/-- Modelled from the spec: the `Agent` container of
`jumanji.environments.routing.connector.types` is absent from the
sources; the action-mask logic only uses its grid position. -/
structure Agent where
  position : Int × Int

/-- Modelled from the spec: `move` of
`jumanji.environments.routing.connector.utils` is absent from the
sources; per the `step` docstring, actions 1, 2, 3, 4 move the position
one cell up, right, down, left, and 0 is a no-op. -/
def move (pos : Int × Int) (action : Nat) : Int × Int :=
  if action = 1 then (pos.1 - 1, pos.2)
  else if action = 2 then (pos.1, pos.2 + 1)
  else if action = 3 then (pos.1 + 1, pos.2)
  else if action = 4 then (pos.1, pos.2 - 1)
  else pos

/-- Embeds `Connector._get_action_mask`, parametric in
`is_valid_position` (whose module is absent from the sources): a mask of
ones of length 5 whose entries 1..4 are set to the validity of the
agent's moved position for that action. -/
def get_action_mask (is_valid_position : Grid → Agent → Int × Int → Bool)
    (agent : Agent) (grid : Grid) : List Bool :=
  let is_valid_action : Nat → Bool :=
    fun action => is_valid_position grid agent (move agent.position action)
  let mask := List.replicate 5 true
  [1, 2, 3, 4].foldl (fun m a => m.set a (is_valid_action a)) mask

/-- Modelled from the spec: the connector `State` container
(`connector.types` is absent from the sources), per the docstring in
`connector/env.py`: a PRNG key, the grid, the step count, and the
agents. -/
structure State where
  key : Nat
  grid : Grid
  step : Int
  agents : List Agent

/-- The timestep type produced by the connector environment (multi-agent
rewards and discounts). -/
abbrev ConnectorTimeStep := wrappers.TimeStep Grid (List ℚ) (List ℚ) Unit

set_option linter.unusedVariables false in
/-- Embeds `Connector.step` exactly as written in
`src/jumanji/environments/routing/connector/env.py`: the body of the
method is `pass`, so every call returns `None` instead of the
`(State, TimeStep)` pair promised by its signature and docstring. -/
def step (state : State) (action : List Nat) : Option (State × ConnectorTimeStep) :=
  none

end connector

/-! Sample concrete inputs used by the witness theorems. -/

/-- A concrete `Array` spec: shape (2,), int dtype, named. -/
def sampleArraySpec : specs.Array := { shape := [2], dtype := .jint, name := "obs" }

/-- A value conforming to `sampleArraySpec`. -/
def sampleGoodValue : specs.JValue := { shape := [2], dtype := .jint, elem := fun _ => 0 }

/-- A value of the wrong shape for `sampleArraySpec`. -/
def sampleBadValue : specs.JValue := { shape := [3], dtype := .jint, elem := fun _ => 0 }

/-- The `BoundedArray` produced by
`BoundedArray([2], int, minimum=0, maximum=3)`. -/
def sampleBounded : specs.BoundedArray :=
  { shape := [2], dtype := .jint, name := "",
    minimum := specs.scalarV .jint 0, maximum := specs.scalarV .jint 3 }

/-- A value inside the bounds of `sampleBounded`. -/
def sampleInBounds : specs.JValue := { shape := [2], dtype := .jint, elem := fun _ => 2 }

/-- A trivial spec used to populate sample environments. -/
def sampleSpec : specs.Spec := .array { shape := [], dtype := .jint, name := "" }

/-- A concrete two-agent environment for the multi-to-single wrapper
witness: rewards [1, 2] and discounts [0, 1/2] on step. -/
def sampleMultiEnv : wrappers.Environment Nat Nat Nat Nat (List ℚ) (List ℚ) Nat :=
  { reset := fun k => (k, ⟨.first, [1, 2], [1, 1], 5, none⟩),
    step := fun s a => (s + a, ⟨.mid, [1, 2], [0, 1/2], 6, none⟩),
    observation_spec := sampleSpec,
    action_spec := sampleSpec }

/-- A concrete environment whose step is always terminal, for the
auto-reset wrapper witness. -/
def sampleAutoEnv : wrappers.Environment Nat Nat Nat Nat ℚ ℚ Nat :=
  { reset := fun k => (k + 100, ⟨.first, 0, 1, 7, none⟩),
    step := fun s a => (s + a, ⟨.last, 5, 0, 3, some 9⟩),
    observation_spec := sampleSpec,
    action_spec := sampleSpec }

/-- The auto-reset wrapper around `sampleAutoEnv`, with the state itself
as key. -/
def sampleAutoWrapper : wrappers.AutoResetWrapper Nat Nat Nat Nat ℚ ℚ Nat :=
  { env := sampleAutoEnv, state_key := fun s => s }

/-- A concrete 3x3 empty connector grid. -/
def sampleGrid : connector.Grid := [[0, 0, 0], [0, 0, 0], [0, 0, 0]]

/-- A concrete agent at the centre of `sampleGrid`. -/
def sampleAgent : connector.Agent := { position := (1, 1) }

/-- A concrete validity predicate for the action-mask witness: a
position is valid when it lies inside a 3x3 grid. -/
def sampleIsValid : connector.Grid → connector.Agent → Int × Int → Bool :=
  fun _ _ p => decide (0 ≤ p.1) && decide (p.1 < 3) && decide (0 ≤ p.2) && decide (p.2 < 3)

/-! Helper lemmas about the specs layer. -/

namespace specs

theorem array_validate_ok_iff (s : Array) (v : JValue) :
    s.validate v = .ok v ↔ v.shape = s.shape ∧ v.dtype = s.dtype := by
  unfold Array.validate
  by_cases hs : v.shape = s.shape
  · by_cases hd : v.dtype = s.dtype
    · simp [hs, hd]
    · simp [hs, hd]
  · simp [hs]

theorem array_validate_error (s : Array) (v : JValue)
    (h : v.shape ≠ s.shape ∨ v.dtype ≠ s.dtype) :
    ∃ msg, s.validate v = .error msg := by
  unfold Array.validate
  by_cases hs : v.shape = s.shape
  · have hd : v.dtype ≠ s.dtype := by
      rcases h with h | h
      · exact absurd hs h
      · exact h
    refine ⟨failValidationMsg s "Expected dtype as in spec but found another dtype", ?_⟩
    simp [hs, hd]
  · refine ⟨failValidationMsg s "Expected shape as in spec but found another shape", ?_⟩
    simp [hs]

theorem bounded_validate_ok_iff (s : BoundedArray) (v : JValue) :
    s.validate v = .ok v ↔
      v.shape = s.shape ∧ v.dtype = s.dtype ∧
      ∀ idx ∈ allIndices s.shape,
        boundElem s.minimum s.shape idx ≤ v.elem idx ∧
        v.elem idx ≤ boundElem s.maximum s.shape idx := by
  unfold BoundedArray.validate
  by_cases hs : v.shape = s.shape
  · by_cases hd : v.dtype = s.dtype
    · have harr : s.toArray.validate v = .ok v := by
        rw [array_validate_ok_iff]
        exact ⟨hs, hd⟩
      rw [harr]
      simp only [hs, hd, true_and]
      by_cases hb : ((allIndices s.shape).any
            fun idx => decide (v.elem idx < boundElem s.minimum s.shape idx)) ||
          ((allIndices s.shape).any
            fun idx => decide (v.elem idx > boundElem s.maximum s.shape idx))
      · simp only [hb, if_true]
        constructor
        · intro h
          exact absurd h (by simp)
        · intro h
          exfalso
          simp only [Bool.or_eq_true, List.any_eq_true, decide_eq_true_eq] at hb
          rcases hb with ⟨idx, hidx, hlt⟩ | ⟨idx, hidx, hgt⟩
          · exact absurd hlt (not_lt.mpr (h idx hidx).1)
          · exact absurd hgt (not_lt.mpr (h idx hidx).2)
      · rw [if_neg hb]
        simp only [Bool.or_eq_true, List.any_eq_true, decide_eq_true_eq] at hb
        push_neg at hb
        constructor
        · intro _ idx hidx
          exact ⟨hb.1 idx hidx, hb.2 idx hidx⟩
        · intro _
          rfl
    · have := array_validate_error s.toArray v (Or.inr hd)
      rcases this with ⟨msg, hmsg⟩
      rw [hmsg]
      simp [hd]
  · have := array_validate_error s.toArray v (Or.inl hs)
    rcases this with ⟨msg, hmsg⟩
    rw [hmsg]
    simp [hs]

/-- Inverting a successful `BoundedArray.make`. -/
theorem bounded_make_ok_inv (shape : List Nat) (dtype : JDtype)
    (minimum maximum : JValue) (name : String) (s : BoundedArray)
    (h : BoundedArray.make shape dtype minimum maximum name = .ok s) :
    s.shape = shape ∧ s.dtype = dtype ∧
    s.minimum = { minimum with dtype := dtype } ∧
    s.maximum = { maximum with dtype := dtype } ∧
    ∀ idx ∈ allIndices shape,
      boundElem { minimum with dtype := dtype } shape idx ≤
        boundElem { maximum with dtype := dtype } shape idx := by
  unfold BoundedArray.make at h
  by_cases h1 : broadcastableTo minimum.shape shape
  · by_cases h2 : broadcastableTo maximum.shape shape
    · by_cases h3 : (allIndices shape).any
          (fun idx => decide (boundElem { minimum with dtype := dtype } shape idx >
            boundElem { maximum with dtype := dtype } shape idx))
      · simp only [h1, h2] at h
        simp only [not_true, if_false, if_true] at h
        rw [if_pos h3] at h
        exact absurd h (by simp)
      · simp only [h1, h2] at h
        simp only [not_true, if_false, if_true] at h
        rw [if_neg h3] at h
        simp only [Except.ok.injEq] at h
        subst h
        refine ⟨rfl, rfl, rfl, rfl, ?_⟩
        intro idx hidx
        simp only [List.any_eq_true, decide_eq_true_eq, not_exists] at h3
        push_neg at h3
        exact h3 idx hidx
    · simp [h1, h2] at h
  · simp [h1] at h

/-- A bad pair of broadcastable bounds makes the constructor raise. -/
theorem bounded_make_error (shape : List Nat) (dtype : JDtype)
    (minimum maximum : JValue) (name : String)
    (h1 : broadcastableTo minimum.shape shape = true)
    (h2 : broadcastableTo maximum.shape shape = true)
    (h3 : ∃ idx ∈ allIndices shape,
      boundElem { maximum with dtype := dtype } shape idx <
        boundElem { minimum with dtype := dtype } shape idx) :
    ∃ e, BoundedArray.make shape dtype minimum maximum name = .error e := by
  unfold BoundedArray.make
  have h3' : (allIndices shape).any
      (fun idx => decide (boundElem { minimum with dtype := dtype } shape idx >
        boundElem { maximum with dtype := dtype } shape idx)) = true := by
    simp only [List.any_eq_true, decide_eq_true_eq]
    rcases h3 with ⟨idx, hidx, hlt⟩
    exact ⟨idx, hidx, hlt⟩
  refine ⟨"All values in `minimum` must be less than or equal to their corresponding value in `maximum`", ?_⟩
  simp only [h1, h2, h3']
  simp

end specs

/-! Helper lemmas about the default discount aggregator. -/

namespace wrappers

theorem foldl_max_init_le (l : List ℚ) (init : ℚ) : init ≤ l.foldl max init := by
  induction l generalizing init with
  | nil => exact le_refl _
  | cons x xs ih => exact le_trans (le_max_left init x) (ih (max init x))

theorem foldl_max_le_of_mem (l : List ℚ) (init d : ℚ) (h : d ∈ l) :
    d ≤ l.foldl max init := by
  induction l generalizing init with
  | nil => cases h
  | cons x xs ih =>
    rcases List.mem_cons.mp h with rfl | h
    · exact le_trans (le_max_right init d) (foldl_max_init_le xs (max init d))
    · exact ih (max init x) h

theorem foldl_max_mem (l : List ℚ) (init : ℚ) :
    l.foldl max init = init ∨ l.foldl max init ∈ l := by
  induction l generalizing init with
  | nil => exact Or.inl rfl
  | cons x xs ih =>
    rw [List.foldl_cons]
    rcases ih (max init x) with h | h
    · rcases max_choice init x with hm | hm
      · exact Or.inl (by rw [h, hm])
      · exact Or.inr (by rw [h, hm]; exact List.mem_cons_self x xs)
    · exact Or.inr (List.mem_cons_of_mem x h)

theorem jnp_max_mem (l : List ℚ) (h : l ≠ []) : jnp_max l ∈ l := by
  match l with
  | [] => exact absurd rfl h
  | x :: xs =>
    rcases foldl_max_mem xs x with hm | hm
    · rw [jnp_max, hm]
      exact List.mem_cons_self x xs
    · exact List.mem_cons_of_mem x hm

theorem le_jnp_max (l : List ℚ) (d : ℚ) (h : d ∈ l) : d ≤ jnp_max l := by
  match l with
  | [] => cases h
  | x :: xs =>
    rcases List.mem_cons.mp h with rfl | h
    · exact foldl_max_init_le xs d
    · exact foldl_max_le_of_mem xs x d h

theorem jnp_max_ne_zero (l : List ℚ) (hnn : ∀ d ∈ l, 0 ≤ d)
    (h : ∃ d ∈ l, d ≠ 0) : jnp_max l ≠ 0 := by
  rcases h with ⟨d, hd, hdne⟩
  have hpos : 0 < d := lt_of_le_of_ne (hnn d hd) (Ne.symm hdne)
  have := le_jnp_max l d hd
  exact ne_of_gt (lt_of_lt_of_le hpos this)

end wrappers

/-! Claim theorems. -/

/-- C1: For every `Array` spec `s` and every value `v`, `s.validate(v)`
raises `ValueError` if the shape of `v` differs from `s.shape` or its
dtype differs from `s.dtype`, and otherwise returns `v` unchanged;
validation never silently accepts a non-conforming value. -/
theorem array_validate_spec (s : specs.Array) (v : specs.JValue) :
    (s.validate v = .ok v ↔ v.shape = s.shape ∧ v.dtype = s.dtype) ∧
    ((v.shape ≠ s.shape ∨ v.dtype ≠ s.dtype) → ∃ msg, s.validate v = .error msg) :=
  ⟨specs.array_validate_ok_iff s v, specs.array_validate_error s v⟩

theorem array_validate_spec_witness :
    specs.Array.validate sampleArraySpec sampleGoodValue = .ok sampleGoodValue ∧
    ∃ msg, specs.Array.validate sampleArraySpec sampleBadValue = .error msg := by
  constructor
  · exact (array_validate_spec sampleArraySpec sampleGoodValue).1.mpr ⟨rfl, rfl⟩
  · exact (array_validate_spec sampleArraySpec sampleBadValue).2 (Or.inl (by decide))

/-- C2: For every `BoundedArray` spec, `validate(v)` succeeds exactly
when `v` conforms to the underlying `Array` spec (shape and dtype) and
the broadcast minimum and maximum bound every element of `v`
inclusively; and the constructor raises `ValueError` whenever some
broadcast element of the minimum exceeds the corresponding element of
the maximum. -/
theorem bounded_array_spec :
    (∀ (s : specs.BoundedArray) (v : specs.JValue),
      s.validate v = .ok v ↔
        v.shape = s.shape ∧ v.dtype = s.dtype ∧
        ∀ idx ∈ specs.allIndices s.shape,
          specs.boundElem s.minimum s.shape idx ≤ v.elem idx ∧
          v.elem idx ≤ specs.boundElem s.maximum s.shape idx) ∧
    (∀ (shape : List Nat) (dtype : specs.JDtype)
        (minimum maximum : specs.JValue) (name : String),
      specs.broadcastableTo minimum.shape shape = true →
      specs.broadcastableTo maximum.shape shape = true →
      (∃ idx ∈ specs.allIndices shape,
        specs.boundElem { maximum with dtype := dtype } shape idx <
          specs.boundElem { minimum with dtype := dtype } shape idx) →
      ∃ e, specs.BoundedArray.make shape dtype minimum maximum name = .error e) :=
  ⟨specs.bounded_validate_ok_iff,
   fun shape dtype minimum maximum name =>
     specs.bounded_make_error shape dtype minimum maximum name⟩

theorem bounded_array_spec_witness :
    specs.BoundedArray.validate sampleBounded sampleInBounds = .ok sampleInBounds ∧
    ∃ e, specs.BoundedArray.make [1] .jint (specs.scalarV .jint 5)
        (specs.scalarV .jint 3) "" = .error e := by
  constructor
  · refine (bounded_array_spec.1 sampleBounded sampleInBounds).mpr ⟨rfl, rfl, ?_⟩
    decide
  · refine bounded_array_spec.2 [1] .jint (specs.scalarV .jint 5)
      (specs.scalarV .jint 3) "" (by decide) (by decide) ?_
    refine ⟨[0], by decide, by decide⟩

/-- C6: Every spec's generated value conforms to that same spec:
`validate(generate_value())` succeeds and returns the generated value,
for `Array` specs, for `BoundedArray` specs built by the constructor,
and for nested observation specs built from array specs. -/
theorem generate_value_validates :
    (∀ s : specs.Array, s.validate s.generate_value = .ok s.generate_value) ∧
    (∀ (shape : List Nat) (dtype : specs.JDtype) (minimum maximum : specs.JValue)
        (name : String) (s : specs.BoundedArray),
      specs.BoundedArray.make shape dtype minimum maximum name = .ok s →
      s.validate s.generate_value = .ok s.generate_value) ∧
    (∀ os : connect4.ObservationSpec,
      os.validate os.generate_value = .ok os.generate_value) := by
  refine ⟨?_, ?_, ?_⟩
  · intro s
    exact (specs.array_validate_ok_iff s s.generate_value).mpr ⟨rfl, rfl⟩
  · intro shape dtype minimum maximum name s h
    obtain ⟨hsh, hdt, hmin, hmax, hle⟩ :=
      specs.bounded_make_ok_inv shape dtype minimum maximum name s h
    refine (specs.bounded_validate_ok_iff s s.generate_value).mpr ⟨rfl, rfl, ?_⟩
    intro idx hidx
    constructor
    · exact le_refl _
    · show specs.boundElem s.minimum s.shape idx ≤ specs.boundElem s.maximum s.shape idx
      rw [hmin, hmax, hsh]
      exact hle idx (by rwa [hsh] at hidx)
  · intro os
    have hb : os.board_obs.validate os.board_obs.generate_value =
        .ok os.board_obs.generate_value :=
      (specs.array_validate_ok_iff _ _).mpr ⟨rfl, rfl⟩
    have hm : os.action_mask.validate os.action_mask.generate_value =
        .ok os.action_mask.generate_value :=
      (specs.array_validate_ok_iff _ _).mpr ⟨rfl, rfl⟩
    show (do
      let board ← os.board_obs.validate os.board_obs.generate_value
      let mask ← os.action_mask.validate os.action_mask.generate_value
      pure { board := board, action_mask := mask } : Except String connect4.Observation) =
        .ok os.generate_value
    rw [hb, hm]
    rfl

theorem generate_value_validates_witness :
    specs.BoundedArray.validate sampleBounded sampleBounded.generate_value =
      .ok sampleBounded.generate_value :=
  generate_value_validates.2.1 [2] .jint (specs.scalarV .jint 0)
    (specs.scalarV .jint 3) "" sampleBounded rfl

/-- C9: `jumanji_specs_to_dm_env_specs` raises `ValueError` exactly when
its argument is a nested spec (not in the `Array` family); for
`DiscreteArray`, `BoundedArray` and `Array` inputs (dispatched in that
subclass order) it returns the corresponding dm_env spec preserving
shape, dtype, bounds and `num_values`, with an empty name mapped to
`None`. -/
theorem dm_env_conversion_spec :
    (∀ d : specs.DiscreteArray,
      specs.jumanji_specs_to_dm_env_specs (.discrete d) =
        .ok (.discrete d.num_values d.dtype (specs.nameOrNone d.name))) ∧
    (∀ b : specs.BoundedArray,
      specs.jumanji_specs_to_dm_env_specs (.bounded b) =
        .ok (.bounded b.shape b.dtype b.minimum b.maximum (specs.nameOrNone b.name))) ∧
    (∀ a : specs.Array,
      specs.jumanji_specs_to_dm_env_specs (.array a) =
        .ok (.array a.shape a.dtype (specs.nameOrNone a.name))) ∧
    (∀ s : specs.Spec,
      (∃ e, specs.jumanji_specs_to_dm_env_specs s = .error e) ↔
        ∃ n cs, s = .nested n cs) ∧
    specs.nameOrNone "" = none := by
  refine ⟨fun d => rfl, fun b => rfl, fun a => rfl, ?_, rfl⟩
  intro s
  constructor
  · rintro ⟨e, he⟩
    cases s with
    | array a => simp [specs.jumanji_specs_to_dm_env_specs] at he
    | bounded b => simp [specs.jumanji_specs_to_dm_env_specs] at he
    | discrete d => simp [specs.jumanji_specs_to_dm_env_specs] at he
    | nested n cs => exact ⟨n, cs, rfl⟩
  · rintro ⟨n, cs, rfl⟩
    exact ⟨_, rfl⟩

theorem dm_env_conversion_spec_witness :
    specs.jumanji_specs_to_dm_env_specs (.array sampleArraySpec) =
      .ok (.array [2] .jint (some "obs")) ∧
    ∃ e, specs.jumanji_specs_to_dm_env_specs (.nested "obs_spec" []) = .error e := by
  constructor
  · exact dm_env_conversion_spec.2.2.1 sampleArraySpec
  · exact (dm_env_conversion_spec.2.2.2.1 (.nested "obs_spec" [])).mpr ⟨"obs_spec", [], rfl⟩

/-- C3 (code bug): `Connector.step` as written in the sources has `pass`
as its body, so for every state and action it returns `None` rather
than the `(State, TimeStep)` pair promised by its signature and
docstring. -/
theorem connector_step_returns_none (state : connector.State) (action : List Nat) :
    connector.step state action = none :=
  rfl

/-- C4: `AutoResetWrapper.step` returns the underlying step's state and
timestep unchanged when the timestep is not terminal; when it is
terminal, it returns the reset state and a timestep taking observation
and step type from the reset timestep and reward, discount and extras
from the terminal transition. -/
theorem auto_reset_wrapper_step_spec {K S A O R D E : Type}
    (w : wrappers.AutoResetWrapper K S A O R D E) (state : S) (action : A) :
    ((w.env.step state action).2.last = false →
      w.step state action = w.env.step state action) ∧
    ((w.env.step state action).2.last = true →
      w.step state action =
        ((w.env.reset (w.state_key (w.env.step state action).1)).1,
         { step_type :=
             (w.env.reset (w.state_key (w.env.step state action).1)).2.step_type,
           reward := (w.env.step state action).2.reward,
           discount := (w.env.step state action).2.discount,
           observation :=
             (w.env.reset (w.state_key (w.env.step state action).1)).2.observation,
           extras := (w.env.step state action).2.extras })) := by
  constructor
  · intro h
    show (if (w.env.step state action).2.last then _ else _) = _
    rw [h]
    rfl
  · intro h
    show (if (w.env.step state action).2.last then _ else _) = _
    rw [h]
    rfl

theorem auto_reset_wrapper_step_spec_witness :
    sampleAutoWrapper.step 1 2 =
      (103, { step_type := .first, reward := 5, discount := 0,
              observation := 7, extras := some 9 }) := by
  have h := (auto_reset_wrapper_step_spec sampleAutoWrapper 1 2).2 rfl
  rw [h]
  rfl

/-- C5: With the default aggregators, `MultiToSingleWrapper.step` (and
`reset`) keep the underlying state, step type and observation, set the
reward to the sum of the per-agent rewards, and set the discount to the
maximum of the per-agent discounts, which is nonzero whenever some
agent's discount is nonzero. -/
theorem multi_to_single_default_spec {K S A O E : Type}
    (env : wrappers.Environment K S A O (List ℚ) (List ℚ) E)
    (key : K) (state : S) (action : A) :
    ((wrappers.MultiToSingleWrapper.mkDefault env).step state action).1 =
        (env.step state action).1 ∧
    ((wrappers.MultiToSingleWrapper.mkDefault env).step state action).2.reward =
        ((env.step state action).2.reward).sum ∧
    ((wrappers.MultiToSingleWrapper.mkDefault env).step state action).2.step_type =
        (env.step state action).2.step_type ∧
    ((wrappers.MultiToSingleWrapper.mkDefault env).step state action).2.observation =
        (env.step state action).2.observation ∧
    ((wrappers.MultiToSingleWrapper.mkDefault env).reset key).1 = (env.reset key).1 ∧
    ((wrappers.MultiToSingleWrapper.mkDefault env).reset key).2.reward =
        ((env.reset key).2.reward).sum ∧
    ((wrappers.MultiToSingleWrapper.mkDefault env).reset key).2.step_type =
        (env.reset key).2.step_type ∧
    ((wrappers.MultiToSingleWrapper.mkDefault env).reset key).2.observation =
        (env.reset key).2.observation ∧
    ((env.step state action).2.discount ≠ [] →
      ((wrappers.MultiToSingleWrapper.mkDefault env).step state action).2.discount ∈
          (env.step state action).2.discount ∧
      ∀ d ∈ (env.step state action).2.discount,
        d ≤ ((wrappers.MultiToSingleWrapper.mkDefault env).step state action).2.discount) ∧
    ((env.reset key).2.discount ≠ [] →
      ((wrappers.MultiToSingleWrapper.mkDefault env).reset key).2.discount ∈
          (env.reset key).2.discount ∧
      ∀ d ∈ (env.reset key).2.discount,
        d ≤ ((wrappers.MultiToSingleWrapper.mkDefault env).reset key).2.discount) ∧
    ((∀ d ∈ (env.step state action).2.discount, 0 ≤ d) →
      (∃ d ∈ (env.step state action).2.discount, d ≠ 0) →
      ((wrappers.MultiToSingleWrapper.mkDefault env).step state action).2.discount ≠ 0) := by
  refine ⟨rfl, rfl, rfl, rfl, rfl, rfl, rfl, rfl, ?_, ?_, ?_⟩
  · intro h
    exact ⟨wrappers.jnp_max_mem _ h, fun d hd => wrappers.le_jnp_max _ d hd⟩
  · intro h
    exact ⟨wrappers.jnp_max_mem _ h, fun d hd => wrappers.le_jnp_max _ d hd⟩
  · intro hnn hex
    exact wrappers.jnp_max_ne_zero _ hnn hex

theorem multi_to_single_default_spec_witness :
    ((wrappers.MultiToSingleWrapper.mkDefault sampleMultiEnv).step 1 2).2.reward = 3 ∧
    ((wrappers.MultiToSingleWrapper.mkDefault sampleMultiEnv).step 1 2).2.discount ∈
        ([0, 1/2] : List ℚ) ∧
    ((wrappers.MultiToSingleWrapper.mkDefault sampleMultiEnv).step 1 2).2.discount ≠ 0 := by
  have h := multi_to_single_default_spec sampleMultiEnv 1 1 2
  have hne : (sampleMultiEnv.step 1 2).2.discount ≠ [] := List.cons_ne_nil 0 [1/2]
  have hnn : ∀ d ∈ (sampleMultiEnv.step 1 2).2.discount, 0 ≤ d := by
    intro d hd
    have hd2 : d ∈ ([0, 1/2] : List ℚ) := hd
    rcases List.mem_cons.mp hd2 with rfl | hd3
    · exact le_refl 0
    · rcases List.mem_cons.mp hd3 with rfl | hd4
      · norm_num
      · cases hd4
  have hmem : (1/2 : ℚ) ∈ (sampleMultiEnv.step 1 2).2.discount :=
    List.mem_cons_of_mem 0 (List.mem_cons_self (1/2) [])
  refine ⟨?_, ?_, ?_⟩
  · rw [h.2.1]
    show ([1, 2] : List ℚ).sum = 3
    norm_num
  · exact (h.2.2.2.2.2.2.2.2.1 hne).1
  · exact h.2.2.2.2.2.2.2.2.2.2 hnn ⟨1/2, hmem, by norm_num⟩

/-- C7: The connector action mask is a boolean array of length 5 whose
entry 0 (no-op) is always true and whose entry `a` for `a` in 1..4 is
true exactly when moving the agent's position one cell in direction `a`
yields a valid position on the grid. -/
theorem connector_action_mask_spec
    (is_valid_position : connector.Grid → connector.Agent → Int × Int → Bool)
    (agent : connector.Agent) (grid : connector.Grid) :
    (connector.get_action_mask is_valid_position agent grid).length = 5 ∧
    (connector.get_action_mask is_valid_position agent grid).getD 0 false = true ∧
    ∀ a, 1 ≤ a → a ≤ 4 →
      (connector.get_action_mask is_valid_position agent grid).getD a false =
        is_valid_position grid agent (connector.move agent.position a) := by
  refine ⟨rfl, rfl, ?_⟩
  intro a h1 h4
  interval_cases a
  · rfl
  · rfl
  · rfl
  · rfl

theorem connector_action_mask_spec_witness :
    (connector.get_action_mask sampleIsValid sampleAgent sampleGrid).getD 2 false =
      sampleIsValid sampleGrid sampleAgent (connector.move (1, 1) 2) :=
  (connector_action_mask_spec sampleIsValid sampleAgent sampleGrid).2.2 2
    (by decide) (by decide)

/-- C10: The base `Wrapper` is observationally identical to the
environment it wraps: `reset`, `step`, `observation_spec` and
`action_spec` delegate unchanged, `unwrapped` equals the wrapped
environment's `unwrapped`, and under any nesting of wrappers
`unwrapped` is the innermost environment. -/
theorem wrapper_transparent {K S A O R D E : Type} :
    (∀ t : wrappers.EnvStack K S A O R D E,
      (wrappers.EnvStack.wrap t).reset = t.reset ∧
      (wrappers.EnvStack.wrap t).step = t.step ∧
      (wrappers.EnvStack.wrap t).observation_spec = t.observation_spec ∧
      (wrappers.EnvStack.wrap t).action_spec = t.action_spec ∧
      (wrappers.EnvStack.wrap t).unwrapped = t.unwrapped) ∧
    (∀ (e : wrappers.Environment K S A O R D E) (n : Nat),
      (wrappers.wrapN n (.base e)).unwrapped = e) := by
  constructor
  · intro t
    exact ⟨rfl, rfl, rfl, rfl, rfl⟩
  · intro e n
    induction n with
    | zero => rfl
    | succ n ih =>
      show (wrappers.EnvStack.wrap (wrappers.wrapN n (.base e))).unwrapped = e
      rw [wrappers.EnvStack.unwrapped]
      exact ih
